import Mathlib

/-!
# Verification of the dev-project-analyzer analysis pipeline

A shallow embedding of the core of `src/analyzer.py` and `src/config.py`:
the per-file metric engine (generic / JavaScript / HTML / CSS strategies and
the shared issue computation), the classifier, the duplicate-pair
enumeration, the per-language aggregation loop and the project summary.

Python machine floats are embedded as exact rationals (the constants and
ratios involved are exact in binary or only ever compared, never rounded in
a way the claims depend on); real-valued similarity scores are embedded as
reals. Python lists become `List`, insertion-ordered dicts become
association lists in first-insertion order, a function that may raise
becomes an `Except`/`Option`-valued function.
-/

namespace DevProjectAnalyzer

/-! ## config.py -/

/-- config.py line 80: `SIMILARITY_THRESHOLD = 0.8` (0.8 exact as a rational;
the float 0.8 is compared, never added, so the embedding keeps the decimal
value). -/
def SIMILARITY_THRESHOLD : ℚ := 8/10

/-- config.py line 112: `'loc': {'max': 500, ...}`. -/
def locMaxThreshold : ℕ := 500

/-- config.py line 112: `'loc': {..., 'warning': 300}`. -/
def locWarningThreshold : ℕ := 300

/-- config.py line 113: `'comment_ratio': {'min': 0.1, ...}`. -/
def commentRatioMin : ℚ := 1/10

/-- config.py lines 38-48: `SUPPORTED_CODE_EXTENSIONS`, in dict insertion
order (Python dicts preserve it, and `_categorize_file` iterates it). -/
def SUPPORTED_CODE_EXTENSIONS : List (String × List String) :=
  [("python", [".py", ".pyw", ".pyx", ".pxd", ".pxi"]),
   ("javascript", [".js", ".jsx", ".ts", ".tsx"]),
   ("web", [".html", ".htm", ".css", ".scss", ".sass"]),
   ("java", [".java", ".class", ".jar"]),
   ("c_cpp", [".c", ".cpp", ".h", ".hpp"]),
   ("ruby", [".rb", ".rake", ".gemspec"]),
   ("php", [".php", ".phtml"]),
   ("go", [".go"]),
   ("rust", [".rs"])]

/-! ## Python string primitives used by analyzer.py -/

/-- Accumulator pass of Python `str.splitlines`: lines split at `\n`, `\r`
and `\r\n`, with no empty line after a trailing terminator. (Python also
splits at rare Unicode boundaries — `\v`, `\f`, FS/GS/RS, NEL, LS, PS — not
modelled here; no claim involves them.) -/
def splitlinesGo : List Char → List Char → List (List Char)
  | [], acc => if acc.isEmpty then [] else [acc.reverse]
  | '\r' :: '\n' :: rest, acc => acc.reverse :: splitlinesGo rest []
  | '\n' :: rest, acc => acc.reverse :: splitlinesGo rest []
  | '\r' :: rest, acc => acc.reverse :: splitlinesGo rest []
  | c :: rest, acc => splitlinesGo rest (c :: acc)

/-- Python `content.splitlines()`. -/
def splitlines (content : String) : List (List Char) :=
  splitlinesGo content.toList []

/-- The characters Python `str.strip()` removes (ASCII whitespace). -/
def isPySpace (c : Char) : Bool :=
  c == ' ' || c == '\t' || c == '\n' || c == '\r' || c == '\x0b' || c == '\x0c'

/-- Python `line.strip()` on one line. -/
def pyStrip (l : List Char) : List Char :=
  ((l.dropWhile isPySpace).reverse.dropWhile isPySpace).reverse

/-- Python `sub in s` substring membership. -/
def containsSub (sub s : List Char) : Bool :=
  (List.range (s.length + 1)).any (fun i => sub.isPrefixOf (s.drop i))

/-! ## Metric engine: the four in-repo counting strategies -/

/-- analyzer.py line 244: `loc = len(content.splitlines())`. -/
def genericLoc (content : String) : ℕ :=
  (splitlines content).length

/-- analyzer.py line 245: `sloc = len([line for line in content.splitlines()
if line.strip()])` — the non-blank line count. -/
def genericSloc (content : String) : ℕ :=
  ((splitlines content).filter (fun l => !(pyStrip l).isEmpty)).length

/-- analyzer.py lines 276-291: the JavaScript comment counter, carrying the
`in_multiline` flag line to line. -/
def jsCommentsGo : List (List Char) → Bool → ℕ
  | [], _ => 0
  | line :: rest, inMultiline =>
    if ['/', '/'].isPrefixOf (pyStrip line) then 1 + jsCommentsGo rest inMultiline
    else if containsSub ['/', '*'] (pyStrip line) && containsSub ['*', '/'] (pyStrip line) then
      1 + jsCommentsGo rest inMultiline
    else if containsSub ['/', '*'] (pyStrip line) then 1 + jsCommentsGo rest true
    else if containsSub ['*', '/'] (pyStrip line) then 1 + jsCommentsGo rest false
    else if inMultiline then 1 + jsCommentsGo rest inMultiline
    else jsCommentsGo rest inMultiline

/-- analyzer.py lines 276-291, entry point: `in_multiline` starts False. -/
def jsComments (content : String) : ℕ :=
  jsCommentsGo (splitlines content) false

/-- The remainder of `s` after the leftmost occurrence of `pat`, `none` when
`pat` does not occur. -/
def dropToAfter (pat : List Char) : List Char → Option (List Char)
  | [] => if pat.isEmpty then some [] else none
  | c :: rest =>
    if pat.isPrefixOf (c :: rest) then some ((c :: rest).drop pat.length)
    else dropToAfter pat rest

/-- Count of non-overlapping `op ... cl` spans, leftmost and shortest first:
what `len(re.findall(op [\s\S]*? cl, content))` counts for literal
delimiters. Fuel-bounded by the text length (each span consumes at least one
character). -/
def countSpansGo : ℕ → List Char → List Char → List Char → ℕ
  | 0, _, _, _ => 0
  | fuel + 1, op, cl, s =>
    match dropToAfter op s with
    | none => 0
    | some r1 =>
      match dropToAfter cl r1 with
      | none => 0
      | some r2 => 1 + countSpansGo fuel op cl r2

/-- Span counter on a whole file. -/
def countSpans (op cl : List Char) (content : String) : ℕ :=
  countSpansGo (content.length + 1) op cl content.toList

/-- analyzer.py line 303: `comments = len(re.findall(r'<!--[\s\S]*?-->', content))`. -/
def htmlComments (content : String) : ℕ :=
  countSpans "<!--".toList "-->".toList content

/-- analyzer.py line 312: `comments = len(re.findall(r'/\*[\s\S]*?\*/', content))`. -/
def cssComments (content : String) : ℕ :=
  countSpans "/*".toList "*/".toList content

/-! ## The shared issue computation (analyzer.py lines 318-346) -/

/-- Round-half-even of the fraction num/den (den positive) — the rounding
Python float formatting applies — computed on the integers: `f` the floor,
`r` the non-negative remainder, compare twice the remainder against the
denominator. -/
def roundHalfEvenFrac (num den : ℤ) : ℤ :=
  let f := Int.fdiv num den
  let r := num - f * den
  if 2 * r < den then f
  else if den < 2 * r then f + 1
  else if f % 2 = 0 then f else f + 1

/-- Python `format(q, '.2%')` for a non-negative exact ratio: the value times
100 with two decimals and a percent sign; q·10000 is rounded half-even on
the fraction's integer fields. -/
def formatPercent2 (q : ℚ) : String :=
  let n := (roundHalfEvenFrac (q.num * 10000) (q.den : ℤ)).toNat
  let whole := n / 100
  let frac := n % 100
  toString whole ++ "." ++ (if frac < 10 then "0" ++ toString frac else toString frac) ++ "%"

/-- analyzer.py lines 319-322: `comment_ratio = comments / sloc if sloc > 0
else 0`. -/
def commentRatio (comments sloc : ℕ) : ℚ :=
  if 0 < sloc then (comments : ℚ) / (sloc : ℚ) else 0

/-- analyzer.py lines 324-331: the issue list of one file — the two
line-count issues (`if sloc > max` / `elif sloc > warning`) followed by the
low-comment-ratio issue (`if comment_ratio < min`). -/
def metricIssues (sloc comments : ℕ) : List String :=
  (if locMaxThreshold < sloc then
     ["File too long: " ++ (toString sloc ++ " lines")]
   else if locWarningThreshold < sloc then
     ["Warning: File approaching maximum length: " ++ (toString sloc ++ " lines")]
   else [])
  ++ (if commentRatio comments sloc < commentRatioMin then
        ["Low comment ratio: " ++ formatPercent2 (commentRatio comments sloc)]
      else [])

/-- analyzer.py lines 52-62: the CodeMetrics record (the `functions` and
`dependencies` fields are not embedded: no claim concerns them and their
extraction is regex/AST work orthogonal to every claim). -/
structure CodeMetrics where
  loc : ℕ
  sloc : ℕ
  comments : ℕ
  complexity : ℚ
  maintainability : ℚ
  duplicates : List String
  issues : List String
deriving Repr, DecidableEq

/-- analyzer.py lines 333-343: assemble the CodeMetrics record from a
strategy's counters; `duplicates` is initialized empty ("Will be filled
later" — it never is). -/
def mkCodeMetrics (loc sloc comments : ℕ) (complexity maintainability : ℚ) : CodeMetrics :=
  { loc := loc, sloc := sloc, comments := comments,
    complexity := complexity, maintainability := maintainability,
    duplicates := [], issues := metricIssues sloc comments }

/-- analyzer.py lines 243-316: `_get_code_metrics` after a successful read —
generic counters (lines 244-251), then the extension dispatch. The
`.py`/`.pyw` branch delegates loc/sloc/comments/complexity/maintainability
to the third-party radon library and is not embedded; every other extension
takes one of the four in-repo strategies, which keep complexity 0 and
maintainability 100 (the defaults of lines 247-248). -/
def getCodeMetrics (ext : String) (content : String) : CodeMetrics :=
  let loc := genericLoc content
  let sloc := genericSloc content
  if ext ∈ [".js", ".jsx", ".ts", ".tsx"] then
    mkCodeMetrics loc sloc (jsComments content) 0 100
  else if ext ∈ [".html", ".htm"] then
    mkCodeMetrics loc sloc (htmlComments content) 0 100
  else if ext ∈ [".css", ".scss", ".sass"] then
    mkCodeMetrics loc sloc (cssComments content) 0 100
  else
    mkCodeMetrics loc sloc 0 0 100

/-! ## Classifier (analyzer.py lines 456-483) -/

/-- Python `str.lower()` over the ASCII range (the extension tables and
category names are ASCII). -/
def toLowerAscii (s : String) : String :=
  String.mk (s.toList.map (fun c => if 'A' ≤ c ∧ c ≤ 'Z' then Char.ofNat (c.toNat + 32) else c))

/-- CPython `PurePath.suffix` of a file name: the part from the last dot,
empty when the only dot leads the name or ends it. -/
def pathSuffix (fileName : String) : String :=
  let cs := fileName.toList
  match ((List.range cs.length).filter (fun i => cs.getD i ' ' == '.')).getLast? with
  | some i => if 0 < i ∧ i + 1 < cs.length then String.mk (cs.drop i) else ""
  | none => ""

/-- analyzer.py lines 467: the documentation extensions. -/
def DOC_EXTENSIONS : List String :=
  [".md", ".rst", ".txt", ".pdf", ".doc", ".docx"]

/-- analyzer.py lines 472-475: the well-known configuration file names. -/
def CONFIG_PATTERNS : List String :=
  ["requirements.txt", "package.json", "setup.py",
   ".gitignore", "Dockerfile", "docker-compose.yml"]

/-- analyzer.py line 476: the configuration extensions. -/
def CONFIG_EXTENSIONS : List String :=
  [".json", ".yaml", ".yml", ".toml", ".ini"]

/-- analyzer.py lines 456-483: `_categorize_file` — lowercased suffix and
name, then the code table in order, documentation, configuration, the
test/spec substring check, and the `other` fallback. -/
def categorizeFile (fileName : String) : String :=
  let ext := toLowerAscii (pathSuffix fileName)
  let name := toLowerAscii fileName
  match SUPPORTED_CODE_EXTENSIONS.find? (fun p => p.2.contains ext) with
  | some p => "code/" ++ p.1
  | none =>
    if DOC_EXTENSIONS.contains ext then "documentation"
    else if CONFIG_PATTERNS.contains name || CONFIG_EXTENSIONS.contains ext then
      "configuration"
    else if containsSub "test".toList name.toList || containsSub "spec".toList name.toList then
      "test"
    else "other"

/-- The fixed category vocabulary: `code/<lang>` for the nine table entries,
then the four non-code categories. -/
def CATEGORY_SET : List String :=
  ["code/python", "code/javascript", "code/web", "code/java", "code/c_cpp",
   "code/ruby", "code/php", "code/go", "code/rust",
   "documentation", "configuration", "test", "other"]

/-! ## Duplicate detection (analyzer.py lines 352-386) -/

/-- Dot product of two term-weight vectors (the core of the third-party
`cosine_similarity`). -/
def dotProd : List ℚ → List ℚ → ℚ
  | [], _ => 0
  | _, [] => 0
  | a :: as, b :: bs => a * b + dotProd as bs

/-- Cosine similarity of two term-weight vectors, as sklearn's
`cosine_similarity` computes entry (i, j) of the matrix from rows i and j:
the dot product over the product of Euclidean norms (float arithmetic
embedded as reals). -/
noncomputable def cosineSim (v w : List ℚ) : ℝ :=
  (dotProd v w : ℝ) / (Real.sqrt (dotProd v v) * Real.sqrt (dotProd w w))

/-- analyzer.py lines 373-381: the pair loop of `_find_duplicates` — `i` over
`range(n)`, `j` over `range(i+1, n)`, keeping `(i, j, sim)` whenever the
similarity matrix entry strictly exceeds `SIMILARITY_THRESHOLD`. The matrix
is a parameter (it comes from the third-party tf-idf/cosine pipeline);
indices stand for the files in discovery order. -/
def findDuplicates (n : ℕ) (sim : ℕ → ℕ → ℚ) : List (ℕ × ℕ × ℚ) :=
  (List.range n).flatMap (fun i =>
    (List.range' (i + 1) (n - (i + 1))).filterMap (fun j =>
      if SIMILARITY_THRESHOLD < sim i j then some (i, j, sim i j) else none))

/-! ## Per-language aggregation (analyzer.py lines 175-232) -/

/-- analyzer.py lines 209-226: one language's summary record. -/
structure LangMetrics where
  files : ℕ
  total_loc : ℕ
  avg_complexity : ℚ
  avg_maintainability : ℚ
  duplicates : List (ℕ × ℕ × ℚ)
  issues : List String
deriving Repr, DecidableEq

/-- analyzer.py lines 175-181: `_aggregate_issues` over the valid metrics
(extending by an empty issue list is a no-op, so the truthiness guard drops
out). -/
def aggregateIssues (ms : List CodeMetrics) : List String :=
  ms.flatMap (fun m => m.issues)

/-- analyzer.py lines 205-226: one language group's entry — `none` marks a
file whose `_get_code_metrics` returned None; `valid_metrics` filters those
out, and an all-failed group gets the zero-filled record. -/
def analyzeLangGroup (fileMetrics : List (Option CodeMetrics))
    (dups : List (ℕ × ℕ × ℚ)) : LangMetrics :=
  if (fileMetrics.filterMap id).isEmpty then
    { files := fileMetrics.length, total_loc := 0, avg_complexity := 0,
      avg_maintainability := 0, duplicates := [], issues := [] }
  else
    { files := fileMetrics.length,
      total_loc := ((fileMetrics.filterMap id).map (fun m => m.loc)).sum,
      avg_complexity := ((fileMetrics.filterMap id).map (fun m => m.complexity)).sum /
        ((fileMetrics.filterMap id).length : ℚ),
      avg_maintainability := ((fileMetrics.filterMap id).map (fun m => m.maintainability)).sum /
        ((fileMetrics.filterMap id).length : ℚ),
      duplicates := dups,
      issues := aggregateIssues (fileMetrics.filterMap id) }

/-- analyzer.py lines 194-232: the per-language loop with its try/except. A
group's batch outcome is abstracted as an `Except` value (ok: the per-file
results and the duplicate list; error: the batch threw somewhere inside the
`try`); a failing batch hits `continue`, so its language contributes no
entry at all. -/
def analyzeCodeFiles
    (groups : List (String × Except String (List (Option CodeMetrics) × List (ℕ × ℕ × ℚ)))) :
    List (String × LangMetrics) :=
  groups.filterMap (fun g =>
    match g.2 with
    | Except.error _ => none
    | Except.ok (fm, dups) => some (g.1, analyzeLangGroup fm dups))

/-! ## Project summary (analyzer.py lines 485-549) -/

/-- One category's accumulated view (analyzer.py lines 494-508; the per-file
detail list is not embedded — no claim concerns it). -/
structure CategoryInfo where
  count : ℕ
  total_size : ℕ
deriving Repr, DecidableEq

/-- analyzer.py lines 535-548: the summary record. -/
structure ProjectSummary where
  total_files : ℕ
  total_size : ℕ
  languages : List String
  total_loc : ℕ
  avg_complexity : ℚ
  avg_maintainability : ℚ
  total_issues : ℕ
  categories : List (String × ℕ)
deriving Repr, DecidableEq

/-- analyzer.py lines 512-549: `_generate_project_summary`. The language
"set" is the metric dict's key list (keys are unique); the two aggregate
means accumulate the per-language means and divide by the language count
only when it is non-zero (`if languages:`). -/
def generateProjectSummary (categorized : List (String × CategoryInfo))
    (codeMetrics : List (String × LangMetrics)) : ProjectSummary :=
  let languages := codeMetrics.map Prod.fst
  let sumComplexity := (codeMetrics.map (fun l => l.2.avg_complexity)).sum
  let sumMaintainability := (codeMetrics.map (fun l => l.2.avg_maintainability)).sum
  { total_files := (categorized.map (fun c => c.2.count)).sum,
    total_size := (categorized.map (fun c => c.2.total_size)).sum,
    languages := languages,
    total_loc := (codeMetrics.map (fun l => l.2.total_loc)).sum,
    avg_complexity :=
      if languages.isEmpty then sumComplexity else sumComplexity / (languages.length : ℚ),
    avg_maintainability :=
      if languages.isEmpty then sumMaintainability
      else sumMaintainability / (languages.length : ℚ),
    total_issues := (codeMetrics.map (fun l => l.2.issues.length)).sum,
    categories := categorized.map (fun c => (c.1, c.2.count)) }

/-! ## The orchestrator (analyzer.py lines 76-110) -/

/-- analyzer.py lines 40-50: the FileMetadata record (timestamps, MIME type,
encoding, binary flag and hash are not embedded — no claim concerns them). -/
structure FileMetadata where
  path : String
  size : ℕ
  category : String
deriving Repr, DecidableEq

/-- Fold step of `_categorize_files`: bump one category's count and size in
the insertion-ordered association list. -/
def bumpCategory (acc : List (String × CategoryInfo)) (f : FileMetadata) :
    List (String × CategoryInfo) :=
  match acc with
  | [] => [(f.category, ⟨1, f.size⟩)]
  | (c, info) :: rest =>
    if c = f.category then (c, ⟨info.count + 1, info.total_size + f.size⟩) :: rest
    else (c, info) :: bumpCategory rest f

/-- analyzer.py lines 485-510: `_categorize_files` — a `none` entry (a file
whose metadata extraction failed) is skipped (`if not file: continue`). -/
def categorizeFiles (fileMetadata : List (Option FileMetadata)) :
    List (String × CategoryInfo) :=
  (fileMetadata.filterMap id).foldl bumpCategory []

/-- analyzer.py line 93: the code-file filter
`[f for f in file_metadata if f.category.startswith('code/')]` — it reads
`.category` on every entry, including the `None` placeholders left by failed
extractions, so the first `None` raises AttributeError. -/
def codeFileFilter (fileMetadata : List (Option FileMetadata)) :
    Except String (List FileMetadata) :=
  match fileMetadata.mapM (fun o =>
      o.elim (Except.error "AttributeError: NoneType has no attribute category")
        Except.ok) with
  | Except.error e => Except.error e
  | Except.ok fs => Except.ok (fs.filter (fun f => f.category.startsWith "code/"))

/-- analyzer.py line 190: `lang = file.category.split('/')[1]`. -/
def langOf (f : FileMetadata) : String :=
  (f.category.splitOn "/").getD 1 ""

/-- Fold step of the `by_language.setdefault(lang, []).append(file)` grouping:
append to the language's group, keeping first-insertion key order. -/
def insertLangGroup (acc : List (String × List FileMetadata)) (k : String)
    (f : FileMetadata) : List (String × List FileMetadata) :=
  match acc with
  | [] => [(k, [f])]
  | (k2, fs) :: rest =>
    if k2 = k then (k2, fs ++ [f]) :: rest
    else (k2, fs) :: insertLangGroup rest k f

/-- analyzer.py lines 187-191: group the code files by language. -/
def groupByLanguage (files : List FileMetadata) : List (String × List FileMetadata) :=
  files.foldl (fun acc f => insertLangGroup acc (langOf f) f) []

/-- analyzer.py lines 101-106: the result dictionary (timestamp omitted). -/
structure AnalysisResult where
  summary : ProjectSummary
  files : List (String × CategoryInfo)
  metrics : List (String × LangMetrics)
deriving Repr, DecidableEq

/-- analyzer.py lines 76-110: `analyze_project` after the parallel metadata
map, whose per-file outcomes (None on a failed extraction) are the input.
Per-file metric extraction and in-group duplicate detection are oracles
(their outcomes depend on I/O and third-party libraries; both swallow their
own exceptions, lines 348-350 and 383-385, so here no group batch throws).
An exception from the code-file filter reaches the top-level `except`, which
logs and re-raises: the run aborts with that error. -/
def analyzeProject (results : List (Option FileMetadata))
    (metricsOf : FileMetadata → Option CodeMetrics)
    (dupsOf : List FileMetadata → List (ℕ × ℕ × ℚ)) : Except String AnalysisResult :=
  let categorized := categorizeFiles results
  match codeFileFilter results with
  | Except.error e => Except.error e
  | Except.ok codeFiles =>
    let metrics := (groupByLanguage codeFiles).map (fun g =>
      (g.1, analyzeLangGroup (g.2.map metricsOf) (dupsOf g.2)))
    Except.ok { summary := generateProjectSummary categorized metrics,
                files := categorized, metrics := metrics }

/-! ## Helper lemmas on strings -/

theorem string_take3_append (a x : String) (h : 3 ≤ a.data.length) :
    (a ++ x).data.take 3 = a.data.take 3 := by
  rw [String.data_append]
  exact List.take_append_of_le_length h

theorem string_ne_of_take3 {x y : String}
    (h : x.data.take 3 ≠ y.data.take 3) : x ≠ y :=
  fun e => h (by rw [e])

theorem string_append_cancel_left {a x y : String} (h : a ++ x = a ++ y) : x = y := by
  have hd := congrArg String.data h
  rw [String.data_append, String.data_append] at hd
  exact String.ext (List.append_cancel_left hd)

theorem take3_ftl (x : String) :
    ("File too long: " ++ x).data.take 3 = ['F', 'i', 'l'] := by
  rw [string_take3_append _ _ (by decide)]
  decide

theorem take3_warn (x : String) :
    ("Warning: File approaching maximum length: " ++ x).data.take 3 = ['W', 'a', 'r'] := by
  rw [string_take3_append _ _ (by decide)]
  decide

theorem take3_low (x : String) :
    ("Low comment ratio: " ++ x).data.take 3 = ['L', 'o', 'w'] := by
  rw [string_take3_append _ _ (by decide)]
  decide

/-! ## Membership characterizations of the three issue strings -/

theorem ftl_mem_iff (sloc comments : ℕ) (t : String) :
    ("File too long: " ++ t) ∈ metricIssues sloc comments ↔
      locMaxThreshold < sloc ∧ t = toString sloc ++ " lines" := by
  unfold metricIssues
  constructor
  · intro h
    rcases List.mem_append.mp h with h1 | h2
    · split_ifs at h1 with hA hB
      · exact ⟨hA, string_append_cancel_left (List.mem_singleton.mp h1)⟩
      · exact absurd (List.mem_singleton.mp h1)
          (string_ne_of_take3 (by rw [take3_ftl, take3_warn]; decide))
      · exact absurd h1 (List.not_mem_nil _)
    · split_ifs at h2 with hc
      · exact absurd (List.mem_singleton.mp h2)
          (string_ne_of_take3 (by rw [take3_ftl, take3_low]; decide))
      · exact absurd h2 (List.not_mem_nil _)
  · rintro ⟨hA, rfl⟩
    exact List.mem_append_left _ (by rw [if_pos hA]; exact List.mem_singleton.mpr rfl)

theorem warn_mem_iff (sloc comments : ℕ) (w : String) :
    ("Warning: File approaching maximum length: " ++ w) ∈ metricIssues sloc comments ↔
      ¬ locMaxThreshold < sloc ∧ locWarningThreshold < sloc ∧ w = toString sloc ++ " lines" := by
  unfold metricIssues
  constructor
  · intro h
    rcases List.mem_append.mp h with h1 | h2
    · split_ifs at h1 with hA hB
      · exact absurd (List.mem_singleton.mp h1)
          (string_ne_of_take3 (by rw [take3_warn, take3_ftl]; decide))
      · exact ⟨hA, hB, string_append_cancel_left (List.mem_singleton.mp h1)⟩
      · exact absurd h1 (List.not_mem_nil _)
    · split_ifs at h2 with hc
      · exact absurd (List.mem_singleton.mp h2)
          (string_ne_of_take3 (by rw [take3_warn, take3_low]; decide))
      · exact absurd h2 (List.not_mem_nil _)
  · rintro ⟨hA, hB, rfl⟩
    refine List.mem_append_left _ ?_
    rw [if_neg hA, if_pos hB]
    exact List.mem_singleton.mpr rfl

theorem low_mem_iff (sloc comments : ℕ) (p : String) :
    ("Low comment ratio: " ++ p) ∈ metricIssues sloc comments ↔
      commentRatio comments sloc < commentRatioMin ∧
        p = formatPercent2 (commentRatio comments sloc) := by
  unfold metricIssues
  constructor
  · intro h
    rcases List.mem_append.mp h with h1 | h2
    · split_ifs at h1 with hA hB
      · exact absurd (List.mem_singleton.mp h1)
          (string_ne_of_take3 (by rw [take3_low, take3_ftl]; decide))
      · exact absurd (List.mem_singleton.mp h1)
          (string_ne_of_take3 (by rw [take3_low, take3_warn]; decide))
      · exact absurd h1 (List.not_mem_nil _)
    · split_ifs at h2 with hc
      · exact ⟨hc, string_append_cancel_left (List.mem_singleton.mp h2)⟩
      · exact absurd h2 (List.not_mem_nil _)
  · rintro ⟨hc, rfl⟩
    exact List.mem_append_right _ (by rw [if_pos hc]; exact List.mem_singleton.mpr rfl)

/-- The low-ratio comparison, reduced to integer arithmetic: the ratio is
below the 0.10 minimum exactly when the file has no non-blank line (ratio 0)
or ten times the comment count is under the non-blank count. -/
theorem commentRatio_lt_min_iff (c s : ℕ) :
    commentRatio c s < commentRatioMin ↔ (s = 0 ∨ 10 * c < s) := by
  rcases Nat.eq_zero_or_pos s with hs | hs
  · subst hs
    simp [commentRatio, commentRatioMin]
  · rw [commentRatio, if_pos hs, commentRatioMin]
    rw [div_lt_div_iff₀ (by exact_mod_cast hs) (by norm_num)]
    constructor
    · intro h
      refine Or.inr ?_
      have h10 : ((10 * c : ℕ) : ℚ) < (s : ℚ) := by push_cast; linarith
      exact_mod_cast h10
    · rintro (h | h)
      · omega
      · have h10 : ((10 * c : ℕ) : ℚ) < (s : ℚ) := by exact_mod_cast h
        push_cast at h10
        linarith

/-- A JavaScript strategy evaluation: the dispatcher applied to a `.js`
extension. -/
theorem getCodeMetrics_js (content : String) :
    getCodeMetrics ".js" content =
      mkCodeMetrics (genericLoc content) (genericSloc content) (jsComments content) 0 100 := by
  unfold getCodeMetrics
  rw [if_pos (by decide)]

/-! ## Scenario inputs -/

/-- A 10-line JavaScript file: 8 code lines, a blank line, one comment line
(loc 10, sloc 9, comments 1). -/
def jsTenLinesOneComment : String :=
  "var a = 1;\nvar b = 2;\nvar c = 3;\nvar d = 4;\nvar e = 5;\nvar f = 6;\nvar g = 7;\nvar h = 8;\n\n// note"

/-- The same file with the comment line replaced by code (loc 10, sloc 9,
comments 0). -/
def jsTenLinesNoComment : String :=
  "var a = 1;\nvar b = 2;\nvar c = 3;\nvar d = 4;\nvar e = 5;\nvar f = 6;\nvar g = 7;\nvar h = 8;\n\nvar i = 9;"

/-! ## Claim theorems -/

/-- C2: for every file the comment ratio is comments / non-blank lines (0
when the non-blank count is 0), and the "Low comment ratio" issue is emitted
exactly when that ratio is below the 0.10 minimum; the 10-line scenario with
1 comment gets ratio 1/9 and no issue, and with 0 comments ratio 0 and the
issue "Low comment ratio: 0.00%". -/
theorem comment_ratio_spec :
    (∀ comments : ℕ, commentRatio comments 0 = 0) ∧
    (∀ sloc comments : ℕ,
      0 < sloc → commentRatio comments sloc = (comments : ℚ) / (sloc : ℚ)) ∧
    (∀ sloc comments : ℕ,
      ("Low comment ratio: " ++ formatPercent2 (commentRatio comments sloc)) ∈
          metricIssues sloc comments ↔
        commentRatio comments sloc < commentRatioMin) ∧
    commentRatioMin = 1/10 ∧
    commentRatio 1 9 = 1/9 ∧
    ((getCodeMetrics ".js" jsTenLinesOneComment).loc = 10 ∧
      (getCodeMetrics ".js" jsTenLinesOneComment).sloc = 9 ∧
      (getCodeMetrics ".js" jsTenLinesOneComment).comments = 1 ∧
      (getCodeMetrics ".js" jsTenLinesOneComment).issues = []) ∧
    ((getCodeMetrics ".js" jsTenLinesNoComment).comments = 0 ∧
      (getCodeMetrics ".js" jsTenLinesNoComment).issues = ["Low comment ratio: 0.00%"]) := by
  have hA : getCodeMetrics ".js" jsTenLinesOneComment = mkCodeMetrics 10 9 1 0 100 := by
    rw [getCodeMetrics_js,
      show genericLoc jsTenLinesOneComment = 10 from by decide,
      show genericSloc jsTenLinesOneComment = 9 from by decide,
      show jsComments jsTenLinesOneComment = 1 from by decide]
  have hB : getCodeMetrics ".js" jsTenLinesNoComment = mkCodeMetrics 10 9 0 0 100 := by
    rw [getCodeMetrics_js,
      show genericLoc jsTenLinesNoComment = 10 from by decide,
      show genericSloc jsTenLinesNoComment = 9 from by decide,
      show jsComments jsTenLinesNoComment = 0 from by decide]
  have hIssuesA : metricIssues 9 1 = [] := by
    unfold metricIssues
    rw [if_neg (by decide), if_neg (by decide),
      if_neg (by rw [commentRatio_lt_min_iff]; decide)]
    rfl
  have hIssuesB : metricIssues 9 0 = ["Low comment ratio: 0.00%"] := by
    unfold metricIssues
    rw [if_neg (by decide), if_neg (by decide),
      if_pos (by rw [commentRatio_lt_min_iff]; decide),
      show commentRatio 0 9 = 0 from by norm_num [commentRatio],
      show formatPercent2 0 = "0.00%" from by decide]
    decide
  refine ⟨fun c => by simp [commentRatio], fun s c hs => by rw [commentRatio, if_pos hs],
    fun s c => ?_, rfl, by norm_num [commentRatio], ?_, ?_⟩
  · constructor
    · intro h
      exact ((low_mem_iff s c _).mp h).1
    · intro h
      exact (low_mem_iff s c _).mpr ⟨h, rfl⟩
  · rw [hA]
    exact ⟨rfl, rfl, rfl, by simp [mkCodeMetrics, hIssuesA]⟩
  · rw [hB]
    exact ⟨rfl, by simp [mkCodeMetrics, hIssuesB]⟩

/-- C8: the 500/300 line-count thresholds on non-blank lines — at 501 the
"File too long: 501 lines" issue is emitted and no warning-level issue; at
301 only the warning-level issue; at 299 neither; and the two line-count
issues are mutually exclusive for every file. -/
theorem line_count_issue_thresholds :
    (∀ comments : ℕ, "File too long: 501 lines" ∈ metricIssues 501 comments ∧
      ∀ w, ("Warning: File approaching maximum length: " ++ w) ∉ metricIssues 501 comments) ∧
    (∀ comments : ℕ,
      "Warning: File approaching maximum length: 301 lines" ∈ metricIssues 301 comments ∧
      ∀ t, ("File too long: " ++ t) ∉ metricIssues 301 comments) ∧
    (∀ comments : ℕ, (∀ t, ("File too long: " ++ t) ∉ metricIssues 299 comments) ∧
      ∀ w, ("Warning: File approaching maximum length: " ++ w) ∉ metricIssues 299 comments) ∧
    (∀ sloc comments : ℕ, ∀ t w : String,
      ¬(("File too long: " ++ t) ∈ metricIssues sloc comments ∧
        ("Warning: File approaching maximum length: " ++ w) ∈ metricIssues sloc comments)) := by
  refine ⟨fun c => ⟨?_, fun w h => ?_⟩, fun c => ⟨?_, fun t h => ?_⟩,
    fun c => ⟨fun t h => ?_, fun w h => ?_⟩, fun s c t w h => ?_⟩
  · have he : ("File too long: 501 lines" : String) =
        "File too long: " ++ (toString 501 ++ " lines") := by decide
    rw [he]
    exact (ftl_mem_iff 501 c _).mpr ⟨by decide, rfl⟩
  · exact ((warn_mem_iff 501 c w).mp h).1 (by decide)
  · have he : ("Warning: File approaching maximum length: 301 lines" : String) =
        "Warning: File approaching maximum length: " ++ (toString 301 ++ " lines") := by decide
    rw [he]
    exact (warn_mem_iff 301 c _).mpr ⟨by decide, by decide, rfl⟩
  · exact absurd ((ftl_mem_iff 301 c t).mp h).1 (by decide)
  · exact absurd ((ftl_mem_iff 299 c t).mp h).1 (by decide)
  · exact absurd ((warn_mem_iff 299 c w).mp h).2.1 (by decide)
  · exact ((warn_mem_iff s c w).mp h.2).1 ((ftl_mem_iff s c t).mp h.1).1

/-- The non-blank count is a filter of the line list, so it is bounded by the
line count. -/
theorem genericSloc_le_genericLoc (content : String) :
    genericSloc content ≤ genericLoc content :=
  List.length_filter_le _ _

/-- The JavaScript counter adds at most one comment per line. -/
theorem jsCommentsGo_le (lines : List (List Char)) :
    ∀ b, jsCommentsGo lines b ≤ lines.length := by
  induction lines with
  | nil => intro b; simp [jsCommentsGo]
  | cons l t ih =>
    intro b
    have h1 := ih b
    have h2 := ih true
    have h3 := ih false
    simp only [jsCommentsGo, List.length_cons]
    split_ifs <;> omega

theorem jsComments_le (content : String) : jsComments content ≤ genericLoc content :=
  jsCommentsGo_le (splitlines content) false

/-- C3 (amended): for every file the four in-repo strategies give non-blank
count ≤ total line count; the comment count is bounded by the line count for
the generic and JavaScript strategies, but not for the HTML/CSS span
counters (see the counterexample). -/
theorem code_metrics_line_bounds :
    ∀ ext content : String,
      (getCodeMetrics ext content).sloc ≤ (getCodeMetrics ext content).loc ∧
      (ext ∉ [".html", ".htm", ".css", ".scss", ".sass"] →
        (getCodeMetrics ext content).comments ≤ (getCodeMetrics ext content).loc) := by
  intro ext content
  unfold getCodeMetrics
  split_ifs with h1 h2 h3
  · exact ⟨genericSloc_le_genericLoc content, fun _ => jsComments_le content⟩
  · refine ⟨genericSloc_le_genericLoc content, fun hno => absurd ?_ hno⟩
    fin_cases h2 <;> decide
  · refine ⟨genericSloc_le_genericLoc content, fun hno => absurd ?_ hno⟩
    fin_cases h3 <;> decide
  · exact ⟨genericSloc_le_genericLoc content, fun _ => Nat.zero_le _⟩

/-- C3 (counterexample): an HTML file whose single line carries two comments
gets comments = 2 against loc = 1 — the comment count exceeds the total line
count. -/
theorem html_comment_overcount :
    (getCodeMetrics ".html" "<!--a--><!--b-->").comments = 2 ∧
    (getCodeMetrics ".html" "<!--a--><!--b-->").loc = 1 ∧
    ¬((getCodeMetrics ".html" "<!--a--><!--b-->").comments ≤
        (getCodeMetrics ".html" "<!--a--><!--b-->").loc) := by
  refine ⟨by decide, by decide, by decide⟩

/-- C10: the per-file `duplicates` field is created empty by every strategy
and never filled; duplicate pairs surface only in the language-level record,
which carries the group's pair list. -/
theorem per_file_duplicates_empty :
    (∀ loc sloc comments : ℕ, ∀ cx mi : ℚ,
      (mkCodeMetrics loc sloc comments cx mi).duplicates = []) ∧
    (∀ ext content : String, (getCodeMetrics ext content).duplicates = []) ∧
    (∀ (fileMetrics : List (Option CodeMetrics)) (dups : List (ℕ × ℕ × ℚ)),
      fileMetrics.filterMap id ≠ [] →
      (analyzeLangGroup fileMetrics dups).duplicates = dups) := by
  refine ⟨fun _ _ _ _ _ => rfl, fun ext content => ?_, fun fm dups h => ?_⟩
  · unfold getCodeMetrics
    split_ifs
    all_goals rfl
  · unfold analyzeLangGroup
    rw [if_neg (by simpa [List.isEmpty_iff] using h)]

/-- The valid-metric count is the group size minus the failure count. -/
theorem filterMap_id_length (fm : List (Option CodeMetrics)) :
    (fm.filterMap id).length = fm.length - fm.countP (fun o => o.isNone) := by
  induction fm with
  | nil => rfl
  | cons o t ih =>
    have hle := List.countP_le_length (fun o : Option CodeMetrics => o.isNone) (l := t)
    cases o
    all_goals simp [List.filterMap_cons, List.countP_cons, ih]
    all_goals omega

/-- C5: in a language group of N files of which K fail (yield no
CodeMetrics), both per-language means divide by N − K, the count of files
with valid metrics, never by N. -/
theorem mean_divides_by_valid_count :
    ∀ (fileMetrics : List (Option CodeMetrics)) (dups : List (ℕ × ℕ × ℚ)),
      fileMetrics.filterMap id ≠ [] →
      (analyzeLangGroup fileMetrics dups).avg_complexity =
        ((fileMetrics.filterMap id).map (fun m => m.complexity)).sum /
          ((fileMetrics.length - fileMetrics.countP (fun o => o.isNone) : ℕ) : ℚ) ∧
      (analyzeLangGroup fileMetrics dups).avg_maintainability =
        ((fileMetrics.filterMap id).map (fun m => m.maintainability)).sum /
          ((fileMetrics.length - fileMetrics.countP (fun o => o.isNone) : ℕ) : ℚ) := by
  intro fm dups h
  unfold analyzeLangGroup
  rw [if_neg (by simpa [List.isEmpty_iff] using h)]
  rw [filterMap_id_length]
  exact ⟨rfl, rfl⟩

/-- A sample group for the C5 witness: three files, one failed. -/
def c5Sample : List (Option CodeMetrics) :=
  [some (mkCodeMetrics 10 9 1 2 80), none, some (mkCodeMetrics 4 4 0 4 60)]

/-- C5 witness: the mean theorem applied to a concrete group with one failed
file (N = 3, K = 1, divisor 2). -/
theorem mean_divides_by_valid_count_witness :
    (analyzeLangGroup c5Sample []).avg_complexity =
      ((c5Sample.filterMap id).map (fun m => m.complexity)).sum /
        ((c5Sample.length - c5Sample.countP (fun o => o.isNone) : ℕ) : ℚ) ∧
    (analyzeLangGroup c5Sample []).avg_maintainability =
      ((c5Sample.filterMap id).map (fun m => m.maintainability)).sum /
        ((c5Sample.length - c5Sample.countP (fun o => o.isNone) : ℕ) : ℚ) :=
  mean_divides_by_valid_count c5Sample []
    (by simp [c5Sample])

/-- C9: the summary's aggregate complexity/maintainability are unweighted
means of the per-language means (divisor: the number of languages), and an
empty run yields the all-zero summary with no division performed. -/
theorem project_summary_spec :
    generateProjectSummary [] [] =
      { total_files := 0, total_size := 0, languages := [], total_loc := 0,
        avg_complexity := 0, avg_maintainability := 0, total_issues := 0,
        categories := [] } ∧
    (∀ (categorized : List (String × CategoryInfo))
        (codeMetrics : List (String × LangMetrics)),
      (generateProjectSummary categorized codeMetrics).languages =
        codeMetrics.map Prod.fst ∧
      (generateProjectSummary categorized codeMetrics).total_files =
        (categorized.map (fun c => c.2.count)).sum) ∧
    (∀ (categorized : List (String × CategoryInfo))
        (codeMetrics : List (String × LangMetrics)),
      codeMetrics ≠ [] →
      (generateProjectSummary categorized codeMetrics).avg_complexity =
        ((codeMetrics.map (fun l => l.2.avg_complexity)).sum) / (codeMetrics.length : ℚ) ∧
      (generateProjectSummary categorized codeMetrics).avg_maintainability =
        ((codeMetrics.map (fun l => l.2.avg_maintainability)).sum) /
          (codeMetrics.length : ℚ)) := by
  refine ⟨rfl, fun cf cm => ⟨rfl, rfl⟩, fun cf cm h => ?_⟩
  unfold generateProjectSummary
  dsimp only
  have hne : ¬((cm.map Prod.fst).isEmpty = true) := by
    simpa [List.isEmpty_iff, List.map_eq_nil_iff] using h
  rw [if_neg hne, if_neg hne, List.length_map]
  exact ⟨rfl, rfl⟩

/-- In an association list with pairwise-distinct keys (a dict), one key
holds one value. -/
theorem assoc_keys_nodup_eq {β : Type} (l : List (String × β))
    (h : (l.map Prod.fst).Nodup) (a : String) (x y : β)
    (hx : (a, x) ∈ l) (hy : (a, y) ∈ l) : x = y := by
  induction l with
  | nil => cases hx
  | cons p t ih =>
    simp only [List.map_cons, List.nodup_cons] at h
    rcases List.mem_cons.mp hx with h1 | h1
    · rcases List.mem_cons.mp hy with h2 | h2
      · rw [← h1] at h2
        exact ((Prod.mk.injEq _ _ _ _).mp h2).2.symm
      · exfalso
        apply h.1
        rw [← h1]
        exact List.mem_map.mpr ⟨(a, y), h2, rfl⟩
    · rcases List.mem_cons.mp hy with h2 | h2
      · exfalso
        apply h.1
        rw [← h2]
        exact List.mem_map.mpr ⟨(a, x), h1, rfl⟩
      · exact ih h.2 h1 h2

/-- A language group whose metric batch throws. -/
def c4FailGroups :
    List (String × Except String (List (Option CodeMetrics) × List (ℕ × ℕ × ℚ))) :=
  [("python", Except.error "ValueError: empty vocabulary")]

/-- C4 (counterexample): when the only language group's batch throws, the
metrics result is empty — in particular no zero-filled entry for that
language appears, contrary to the claim. -/
theorem batch_failure_counterexample :
    analyzeCodeFiles c4FailGroups = [] ∧
    ("python",
        ({ files := 1, total_loc := 0, avg_complexity := 0, avg_maintainability := 0,
           duplicates := [], issues := [] } : LangMetrics)) ∉ analyzeCodeFiles c4FailGroups := by
  refine ⟨rfl, ?_⟩
  rw [show analyzeCodeFiles c4FailGroups = ([] : List (String × LangMetrics)) from rfl]
  exact List.not_mem_nil _

/-- C4 (amended): a language group whose batch computation throws is omitted
from the metrics result entirely (no entry at all, zero-filled or
otherwise), while every group whose batch returns gets its computed entry —
the run continues for the other languages. (The zero-filled entry appears
for a group that returns with no valid per-file metrics, a different path.) -/
theorem batch_failure_skips_language :
    ∀ (groups : List (String × Except String (List (Option CodeMetrics) × List (ℕ × ℕ × ℚ)))),
      (groups.map Prod.fst).Nodup →
      (∀ lang e, (lang, Except.error e) ∈ groups →
        ∀ m : LangMetrics, (lang, m) ∉ analyzeCodeFiles groups) ∧
      (∀ lang fm dups, (lang, Except.ok (fm, dups)) ∈ groups →
        (lang, analyzeLangGroup fm dups) ∈ analyzeCodeFiles groups) := by
  intro groups hnd
  constructor
  · intro lang e hmem m hin
    unfold analyzeCodeFiles at hin
    rw [List.mem_filterMap] at hin
    obtain ⟨g, hg, heq⟩ := hin
    rcases g with ⟨glang, err | ⟨fm, dups⟩⟩
    · exact Option.noConfusion heq
    · obtain ⟨h1, h2⟩ := (Prod.mk.injEq _ _ _ _).mp (Option.some.inj heq)
      subst h1
      exact Except.noConfusion (assoc_keys_nodup_eq groups hnd glang _ _ hg hmem)
  · intro lang fm dups hmem
    unfold analyzeCodeFiles
    rw [List.mem_filterMap]
    exact ⟨(lang, Except.ok (fm, dups)), hmem, rfl⟩

/-- Two language groups: one whose batch throws, one whose batch returns. -/
def c4MixGroups :
    List (String × Except String (List (Option CodeMetrics) × List (ℕ × ℕ × ℚ))) :=
  [("python", Except.error "ValueError: empty vocabulary"),
   ("javascript", Except.ok ([some (mkCodeMetrics 3 3 0 0 100)], []))]

/-- C4 witness: the amended theorem applied to the two-group sample — the
thrown-batch language has no entry. -/
theorem batch_failure_skips_language_witness :
    ("python",
        ({ files := 1, total_loc := 0, avg_complexity := 0, avg_maintainability := 0,
           duplicates := [], issues := [] } : LangMetrics)) ∉ analyzeCodeFiles c4MixGroups :=
  (batch_failure_skips_language c4MixGroups (by decide)).1
    "python" "ValueError: empty vocabulary"
    (by unfold c4MixGroups; exact List.mem_cons_self _ _) _

/-- C7: category assignment is a total pure function of the file name — the
result is always one of the thirteen fixed categories and never empty; a
name whose (lowercased) suffix is in the code table gets a `code/<language>`
category, and the priority order resolves concrete names as the scenario
table shows (`setup.py` is code before it could be configuration). -/
theorem categorize_file_total :
    (∀ fileName : String,
      categorizeFile fileName ∈ CATEGORY_SET ∧ categorizeFile fileName ≠ "") ∧
    (∀ fileName : String,
      (∃ p ∈ SUPPORTED_CODE_EXTENSIONS, p.2.contains (toLowerAscii (pathSuffix fileName))) →
      ∃ lang ∈ SUPPORTED_CODE_EXTENSIONS.map Prod.fst,
        categorizeFile fileName = "code/" ++ lang) ∧
    categorizeFile "setup.py" = "code/python" ∧
    categorizeFile "README.md" = "documentation" ∧
    categorizeFile "data.json" = "configuration" ∧
    categorizeFile "test_helper.xyz" = "test" ∧
    categorizeFile "notes" = "other" := by
  refine ⟨fun fileName => ?_, fun fileName hex => ?_,
    by decide, by decide, by decide, by decide, by decide⟩
  · unfold categorizeFile
    rcases hfind : SUPPORTED_CODE_EXTENSIONS.find?
        (fun p => p.2.contains (toLowerAscii (pathSuffix fileName))) with _ | p
    · simp only [hfind]
      split_ifs
      all_goals exact ⟨by decide, by decide⟩
    · simp only [hfind]
      have hp := List.mem_of_find?_eq_some hfind
      fin_cases hp
      all_goals exact ⟨by decide, by decide⟩
  · obtain ⟨p, hp, hcont⟩ := hex
    have hsome : (SUPPORTED_CODE_EXTENSIONS.find?
        (fun q => q.2.contains (toLowerAscii (pathSuffix fileName)))).isSome :=
      List.find?_isSome.mpr ⟨p, hp, hcont⟩
    rcases hfind : SUPPORTED_CODE_EXTENSIONS.find?
        (fun q => q.2.contains (toLowerAscii (pathSuffix fileName))) with _ | q
    · rw [hfind] at hsome
      exact Bool.noConfusion hsome
    · refine ⟨q.1, List.mem_map.mpr ⟨q, List.mem_of_find?_eq_some hfind, rfl⟩, ?_⟩
      unfold categorizeFile
      simp only [hfind]

/-- The dot product is symmetric. -/
theorem dotProd_comm : ∀ v w : List ℚ, dotProd v w = dotProd w v
  | [], [] => rfl
  | [], _ :: _ => rfl
  | _ :: _, [] => rfl
  | a :: as, b :: bs => by
    show a * b + dotProd as bs = b * a + dotProd bs as
    rw [dotProd_comm as bs, mul_comm]

/-- Every pair the inner loop of `_find_duplicates` emits carries the outer
index as its first component. -/
theorem findDuplicates_inner_fst {n : ℕ} {sim : ℕ → ℕ → ℚ} {i : ℕ} {x : ℕ × ℕ × ℚ}
    (hx : x ∈ (List.range' (i + 1) (n - (i + 1))).filterMap
      (fun j => if SIMILARITY_THRESHOLD < sim i j then some (i, j, sim i j) else none)) :
    x.1 = i := by
  rw [List.mem_filterMap] at hx
  obtain ⟨j, hj, heq⟩ := hx
  split_ifs at heq with ht
  exact (congrArg Prod.fst (Option.some.inj heq)).symm

/-- C6: duplicate detection — the similarity measure is symmetric; an
emitted pair is exactly an ordered pair i < j (first file earlier in
discovery order) with matrix entry strictly above the 0.8 threshold,
carrying that entry; no file is ever paired with itself; and the emitted
list has no repeated pair. -/
theorem duplicate_detection_spec :
    (∀ v w : List ℚ, cosineSim v w = cosineSim w v) ∧
    (∀ (n : ℕ) (sim : ℕ → ℕ → ℚ) (i j : ℕ) (s : ℚ),
      (i, j, s) ∈ findDuplicates n sim ↔
        (i < j ∧ j < n ∧ SIMILARITY_THRESHOLD < sim i j ∧ s = sim i j)) ∧
    (∀ (n : ℕ) (sim : ℕ → ℕ → ℚ), ∀ p ∈ findDuplicates n sim, p.1 ≠ p.2.1) ∧
    (∀ (n : ℕ) (sim : ℕ → ℕ → ℚ), (findDuplicates n sim).Nodup) := by
  have hmem : ∀ (n : ℕ) (sim : ℕ → ℕ → ℚ) (i j : ℕ) (s : ℚ),
      (i, j, s) ∈ findDuplicates n sim ↔
        (i < j ∧ j < n ∧ SIMILARITY_THRESHOLD < sim i j ∧ s = sim i j) := by
    intro n sim i j s
    unfold findDuplicates
    rw [List.mem_flatMap]
    constructor
    · rintro ⟨a, ha, hx⟩
      rw [List.mem_range] at ha
      rw [List.mem_filterMap] at hx
      obtain ⟨b, hb, heq⟩ := hx
      rw [List.mem_range'_1] at hb
      split_ifs at heq with ht
      obtain ⟨h1, h2⟩ := (Prod.mk.injEq _ _ _ _).mp (Option.some.inj heq)
      obtain ⟨h3, h4⟩ := (Prod.mk.injEq _ _ _ _).mp h2
      subst h1
      subst h3
      subst h4
      exact ⟨by omega, by omega, ht, rfl⟩
    · rintro ⟨hij, hjn, ht, rfl⟩
      refine ⟨i, List.mem_range.mpr (lt_trans hij hjn), ?_⟩
      rw [List.mem_filterMap]
      exact ⟨j, List.mem_range'_1.mpr ⟨hij, by omega⟩, by rw [if_pos ht]⟩
  refine ⟨?_, hmem, ?_, ?_⟩
  · intro v w
    unfold cosineSim
    rw [dotProd_comm v w, mul_comm]
  · rintro n sim ⟨i, j, s⟩ hp
    exact Nat.ne_of_lt ((hmem n sim i j s).mp hp).1
  · intro n sim
    unfold findDuplicates
    rw [List.nodup_flatMap]
    constructor
    · intro i _
      refine List.Nodup.filterMap ?_ (List.nodup_range' _ _)
      intro a a' b hb hb'
      have ea : b.2.1 = a := by
        split_ifs at hb with h1
        · rw [Option.mem_some_iff] at hb
          exact (congrArg (fun z => z.2.1) hb).symm ▸ rfl
        · simp at hb
      have ea' : b.2.1 = a' := by
        split_ifs at hb' with h1
        · rw [Option.mem_some_iff] at hb'
          exact (congrArg (fun z => z.2.1) hb').symm ▸ rfl
        · simp at hb'
      omega
    · refine (List.pairwise_lt_range n).imp ?_
      intro a b hab x hx1 hx2
      have e1 := findDuplicates_inner_fst hx1
      have e2 := findDuplicates_inner_fst hx2
      omega

/-- The positional map of analyzer.py line 93 fails with AttributeError as
soon as the entry list holds a `None`. -/
theorem mapM_elim_error : ∀ fm : List (Option FileMetadata), none ∈ fm →
    fm.mapM (fun o =>
      o.elim (Except.error "AttributeError: NoneType has no attribute category")
        Except.ok) =
      (Except.error "AttributeError: NoneType has no attribute category" :
        Except String (List FileMetadata)) := by
  intro fm
  induction fm with
  | nil => intro h; cases h
  | cons o t ih =>
    intro h
    cases o with
    | none =>
      rw [List.mapM_cons]
      rfl
    | some a =>
      have h1 : none ∈ t := by
        rcases List.mem_cons.mp h with h2 | h2
        · exact Option.noConfusion h2
        · exact h2
      rw [List.mapM_cons, ih h1]
      rfl

/-- A metadata record for one successfully analyzed file. -/
def c1Ok : FileMetadata :=
  { path := "src/app.py", size := 120, category := "code/python" }

/-- C1 (code-bug evidence): one failed metadata extraction (a `None` among
the per-file results) makes `analyze_project` raise AttributeError at the
code-file filter — the whole run aborts and no result is produced, for any
metric/duplicate oracles; in particular on the concrete two-file project
with one failed file. -/
theorem failed_file_aborts_run :
    (∀ (results : List (Option FileMetadata))
        (metricsOf : FileMetadata → Option CodeMetrics)
        (dupsOf : List FileMetadata → List (ℕ × ℕ × ℚ)),
      none ∈ results →
      analyzeProject results metricsOf dupsOf =
        Except.error "AttributeError: NoneType has no attribute category") ∧
    analyzeProject [some c1Ok, none] (fun _ => none) (fun _ => []) =
      Except.error "AttributeError: NoneType has no attribute category" ∧
    (∀ r : AnalysisResult,
      analyzeProject [some c1Ok, none] (fun _ => none) (fun _ => []) ≠ Except.ok r) := by
  have hgen : ∀ (results : List (Option FileMetadata))
      (metricsOf : FileMetadata → Option CodeMetrics)
      (dupsOf : List FileMetadata → List (ℕ × ℕ × ℚ)),
      none ∈ results →
      analyzeProject results metricsOf dupsOf =
        Except.error "AttributeError: NoneType has no attribute category" := by
    intro results mo dp h
    have he : codeFileFilter results =
        Except.error "AttributeError: NoneType has no attribute category" := by
      unfold codeFileFilter
      rw [mapM_elim_error results h]
    unfold analyzeProject
    rw [he]
  refine ⟨hgen, hgen _ _ _ (by simp), ?_⟩
  intro r hr
  rw [hgen [some c1Ok, none] _ _ (by simp)] at hr
  exact Except.noConfusion hr

end DevProjectAnalyzer
